import Mathlib

/-!
# img-share backend: sessions and credentials

A shallow embedding of the Go packages `internal/users`, `internal/auth`,
`internal/api/handlers` and `pkg/password`, followed by theorems about them.

Conventions of the embedding.

* A Go function returning `(T, error)` becomes a function into `T × Option GoError`;
  a function returning only `error` becomes a function into `Option GoError`.
* A Go function that may panic, or that calls an interface method, runs in `Traced`:
  it yields the list of repository calls it made and either a panic message or its
  return values.
* The database pool, bcrypt, the random source, the uuid generator and the clock are
  external to the repository; their answers are fields of `Runtime`, `users.Pool` and
  `auth.Pool`.
* The repository method whose effect on the database is stated,
  `auth.postgresRepository.DeleteSession`, is written in state passing style: it takes
  `Exec` as a transformer of the database state and returns the state next to its
  error. A pool of answers is the case of a database without state.
* `context.WithTimeout` only bounds the repository call it is passed to, and the
  logger only writes log lines; neither changes a return value and both are left out.
-/

set_option autoImplicit false

namespace ImgShare

/-! ## Go values -/

/-- The type `uuid.UUID` (and the 16 bytes of a `pgtype.UUID`), read as a number. -/
abbrev UUID := Nat

/-- The type `time.Time`, an instant counted in nanoseconds; the zero value is `0`. -/
abbrev Time := Int

/-- The type `time.Duration`, in nanoseconds. -/
abbrev Duration := Int

/-- Go `error` values that occur in the packages. -/
inductive GoError where
  /-- A package level `errors.New(text)` value, compared by identity. -/
  | sentinel (text : String)
  /-- An error produced by a library outside the repository (pgx, bcrypt, io, json). -/
  | external (text : String)
  /-- The value `fmt.Errorf("[%s]: %w", op, err)`: wraps `err`. -/
  | wrapW (op : String) (inner : GoError)
  /-- The value `fmt.Errorf("[%s]: %e", op, err)` for a non-nil `err`: `%e` does not wrap. -/
  | fmtE (op : String) (inner : GoError)
  /-- The value `fmt.Errorf("[%s]: %e", op, nil)`. -/
  | fmtENil (op : String)
  /-- Any other `fmt.Errorf` value without a wrapped error, by its text. -/
  | errorf (text : String)
  deriving DecidableEq, Repr

/-- The function `errors.Is`: `err` is `target` or wraps it through `%w`. -/
def errorsIs : GoError → GoError → Bool
  | .wrapW op inner, target => decide (GoError.wrapW op inner = target) || errorsIs inner target
  | e, target => decide (e = target)

/-- Values of Go type `any` that are passed as statement arguments. -/
inductive GoAny where
  | nil
  | str (s : String)
  | bool (b : Bool)
  | uuid (u : UUID)
  | pgUUID (u : UUID) (valid : Bool)
  | pgTimestamp (t : Time) (valid : Bool)
  | strs (l : List String)
  deriving DecidableEq, Repr

/-- The type `pgtype.UUID`; a literal that names only `Bytes` leaves `Valid` false. -/
structure pgtypeUUID where
  Bytes : UUID := 0
  Valid : Bool := false
  deriving DecidableEq, Repr

/-- The type `pgtype.Timestamp`; a literal that names only `Time` leaves `Valid` false. -/
structure pgtypeTimestamp where
  Time : Time := 0
  Valid : Bool := false
  deriving DecidableEq, Repr

/-- The format verb `%d`. -/
def fmtInt (i : Int) : String := toString i

/-- The function `strings.Join`. -/
def stringsJoin (elems : List String) (sep : String) : String := sep.intercalate elems

/-! ## Package `users`: data -/

namespace users

/-- The struct `users.User`; `User.mk` with all defaults is the Go zero value `User{}`. -/
structure User where
  Id : UUID := 0
  Email : String := ""
  Password : String := ""
  IsActive : Bool := false
  CreatedAt : Time := 0
  deriving DecidableEq, Repr

def ErrUserNotFound : GoError := .sentinel "user not found"

def ErrPasswordsDidNotMatch : GoError := .sentinel "passwords did not match"

end users

/-! ## Package `auth`: data -/

namespace auth

/-- The struct `auth.Session`. -/
structure Session where
  Id : String := ""
  UserId : UUID := 0
  ExpiresOn : Time := 0
  deriving DecidableEq, Repr

def sessionIdSize : Nat := 24

/-- The array type `[sessionIdSize]byte`. -/
abbrev SessionIdBytes := { l : List (Fin 256) // l.length = sessionIdSize }

end auth

/-! ## Calls on the repository interfaces, and traced runs -/

/-- One call of a method of `users.Repository` or `auth.Repository`, with its arguments. -/
inductive Call where
  | usersGetUserById (id : UUID)
  | usersGetUserByEmail (email : String)
  | usersCreateUser (user : users.User)
  | usersUpdateUser (id : UUID) (fieldValue : List (String × GoAny))
  | usersDeleteUser (id : UUID)
  | authCreateSession (session : auth.Session)
  | authGetSessionById (value : String)
  | authGetSessionsByUserId (userId : UUID)
  | authDeleteSession (sessionValue : String)
  | authDeleteSessionsByUserId (userId : UUID) (exceptIds : List String)
  deriving DecidableEq, Repr

deriving instance DecidableEq for Except

/-- The outcome of running a Go function: the repository calls it made, in order, and
either the message of the panic that ended it or the values it returned. -/
structure Traced (α : Type) where
  calls : List Call
  out : Except String α
  deriving DecidableEq

namespace Traced

/-- A run that returns `a` and calls nothing. -/
def pure {α : Type} (a : α) : Traced α := ⟨[], .ok a⟩

/-- A run that panics with `msg`. -/
def goPanic {α : Type} (msg : String) : Traced α := ⟨[], .error msg⟩

/-- Sequencing: a panic of the first run ends the whole run. -/
def bind {α β : Type} (m : Traced α) (f : α → Traced β) : Traced β :=
  match m.out with
  | .error msg => ⟨m.calls, .error msg⟩
  | .ok a => ⟨m.calls ++ (f a).calls, (f a).out⟩

/-- One interface call: record it and take the answer of the implementation, which
either panics or returns. -/
def call {α : Type} (c : Call) (answer : Except String α) : Traced α :=
  ⟨[c], answer⟩

end Traced

/-! ## External libraries -/

/-- The values the handlers pass to `json.Marshal`. -/
inductive JsonValue where
  /-- The struct `handlers.BadRequest`. -/
  | BadRequest (Message : String)
  /-- The struct `handlers.userResponse`. -/
  | userResponse (Id : UUID) (Email : String) (CreatedAt : Time) (IsActive : Bool)
  deriving DecidableEq, Repr

/-- The outcome of `rand.Read(id[:])`: the array as the call left it, and `(n, err)`. -/
structure RandRead where
  buf : auth.SessionIdBytes
  n : Int
  err : Option GoError

/-- Answers of the libraries and of the environment that the packages consult. -/
structure Runtime where
  /-- The function `bcrypt.GenerateFromPassword([]byte(password), bcrypt.DefaultCost)`. -/
  bcryptGenerateFromPassword : (password : String) → String × Option GoError
  /-- The function `bcrypt.CompareHashAndPassword(hash, password)`, `none` being `nil`. -/
  bcryptCompareHashAndPassword : (hash : String) → (password : String) → Option GoError
  /-- The function `uuid.NewV4()`. -/
  uuidNewV4 : UUID × Option GoError
  /-- The function `time.Now()`. -/
  timeNow : Time
  /-- The function `rand.Read` on a `sessionIdSize` byte array. -/
  randRead : RandRead
  /-- The function `json.Marshal`. -/
  jsonMarshal : JsonValue → String × Option GoError

/-- The function `uuid.FromBytes` on the 16 bytes of a `pgtype.UUID`: a 16 byte input is
always accepted. -/
def uuidFromBytes (bytes : UUID) : UUID × Option GoError := (bytes, none)

/-- The function `uuid.Must`. -/
def uuidMust (r : UUID × Option GoError) : Traced UUID :=
  match r.2 with
  | some _ => Traced.goPanic "uuid.Must"
  | none => Traced.pure r.1

/-! ## Package `pkg/password` -/

namespace password

/-- The function `password.Compare(password, hash)`. -/
def Compare (rt : Runtime) (password hash : String) : Bool :=
  rt.bcryptCompareHashAndPassword hash password == none

end password

/-! ## Package `users` -/

namespace users

/-- The struct `pgUser`. -/
structure pgUser where
  id : pgtypeUUID := {}
  email : String := ""
  password : String := ""
  isActive : Bool := false
  createdAt : pgtypeTimestamp := {}
  deriving DecidableEq, Repr

/-- The interface `users.Repository`: each method either panics or returns. -/
structure Repository where
  GetUserById : UUID → Except String (User × Option GoError)
  GetUserByEmail : String → Except String (User × Option GoError)
  CreateUser : User → Except String (User × Option GoError)
  UpdateUser : UUID → List (String × GoAny) → Except String (User × Option GoError)
  DeleteUser : UUID → Except String (Option GoError)

/-- The answers of the `*pgxpool.Pool` to the statements of the users repository. -/
structure Pool where
  /-- The call `QueryRow(ctx, query, args...).Scan(...)`: the scanned row and the error. -/
  QueryRowScan : (query : String) → (args : List GoAny) → pgUser × Option GoError
  /-- The call `Exec(ctx, query, args...)`: its error. -/
  Exec : (query : String) → (args : List GoAny) → Option GoError

def pgxErrNoRows : GoError := .sentinel "no rows in result set"

def postgresRepositorySource : String := "users.repo.pg"

def allowedUpdateFields : List String := ["email", "is_active", "password"]

def fromPGUser (user : pgUser) : User × Option GoError :=
  match uuidFromBytes user.id.Bytes with
  | (_, some err) => ({}, some err)
  | (id, none) =>
    ({ Id := id, Email := user.email, Password := user.password,
       IsActive := user.isActive, CreatedAt := user.createdAt.Time }, none)

def toPGUser (user : User) : pgUser :=
  { id := { Bytes := user.Id }, email := user.Email, password := user.Password,
    isActive := user.IsActive, createdAt := { Time := user.CreatedAt } }

/-- The struct `postgresRepository` of package `users`. -/
structure postgresRepository where
  db : Pool

namespace postgresRepository

def getByField (r : postgresRepository) (field : String) (value : GoAny) :
    User × Option GoError :=
  let op := postgresRepositorySource ++ ".getByField"
  let query :=
    "SELECT id, email, password, is_active, created_at FROM users WHERE " ++ field ++ " = $1"
  match r.db.QueryRowScan query [value] with
  | (_, some err) =>
    if errorsIs err pgxErrNoRows then ({}, some ErrUserNotFound)
    else ({}, some (.fmtE op err))
  | (user, none) => fromPGUser user

def GetUserById (r : postgresRepository) (id : UUID) : User × Option GoError :=
  r.getByField "id" (.uuid id)

def GetUserByEmail (r : postgresRepository) (email : String) : User × Option GoError :=
  r.getByField "email" (.str email)

/-- The loop of `UpdateUser` over the entries of the map, in the order the `range`
visits them; it starts from the two slices made with `make(_, len(fieldValue))`. -/
def updateUserLoop :
    List (String × GoAny) → List GoAny × List String → List GoAny × List String
  | [], acc => acc
  | (field, value) :: rest, (args, fieldsToSet) =>
    if ¬ field ∈ allowedUpdateFields then updateUserLoop rest (args, fieldsToSet)
    else
      let args := args ++ [value]
      let fieldsToSet := fieldsToSet ++ [field ++ " = $" ++ fmtInt args.length ++ ", "]
      updateUserLoop rest (args, fieldsToSet)

/-- The slices `args` and `fieldsToSet` of `UpdateUser` when its loop has ended. -/
def updateUserLists (fieldValue : List (String × GoAny)) : List GoAny × List String :=
  updateUserLoop fieldValue
    (List.replicate fieldValue.length GoAny.nil, List.replicate fieldValue.length "")

/-- The statement text and the argument list that `UpdateUser` passes to `QueryRow`. -/
def updateUserStatement (id : UUID) (fieldValue : List (String × GoAny)) :
    String × List GoAny :=
  let (args, fieldsToSet) := updateUserLists fieldValue
  let args := args ++ [GoAny.uuid id]
  ("UPDATE users SET " ++ stringsJoin fieldsToSet ", " ++ " WHERE id = $" ++ fmtInt args.length,
   args)

/-- The method `UpdateUser`; the map is given as the list of its entries in the order
the `range` loop visits them. -/
def UpdateUser (r : postgresRepository) (id : UUID) (fieldValue : List (String × GoAny)) :
    User × Option GoError :=
  let op := postgresRepositorySource ++ ".UpdateUser"
  if fieldValue.length = 0 then r.GetUserById id
  else if (updateUserLists fieldValue).2.length = 0 then r.GetUserById id
  else
    let (query, args) := updateUserStatement id fieldValue
    match r.db.QueryRowScan query args with
    | (_, some err) => ({}, some (.fmtE op err))
    | (user, none) => fromPGUser user

def CreateUser (r : postgresRepository) (user : User) : User × Option GoError :=
  let op := postgresRepositorySource ++ ".CreateSession"
  let query := "\nINSERT INTO users (email, password, is_active) \n\tVALUES ($1, $2, $3, $4) \n" ++
    "\tRETURNING id, email, password, is_active, created_at\n"
  match r.db.QueryRowScan query [.str user.Email, .str user.Password, .bool user.IsActive] with
  | (_, some err) => (user, some (.fmtE op err))
  | (_, none) => (user, none)

def DeleteUser (r : postgresRepository) (id : UUID) : Option GoError :=
  let op := postgresRepositorySource ++ ".DeleteUser"
  let query := "DELETE FROM users WHERE id = $1"
  match r.db.Exec query [.uuid id] with
  | some err => some (.fmtE op err)
  | none => some (.fmtENil op)

end postgresRepository

/-- The function `NewPostgresRepository`: the struct seen through the interface. -/
def NewPostgresRepository (db : Pool) : Repository :=
  let r : postgresRepository := { db := db }
  { GetUserById := fun id => .ok (r.GetUserById id)
    GetUserByEmail := fun email => .ok (r.GetUserByEmail email)
    CreateUser := fun user => .ok (r.CreateUser user)
    UpdateUser := fun id fieldValue => .ok (r.UpdateUser id fieldValue)
    DeleteUser := fun id => .ok (r.DeleteUser id) }

/-- The struct `service` of package `users`. -/
structure service where
  repository : Repository

namespace service

def hashPassword (rt : Runtime) (password : String) : String × Option GoError :=
  match rt.bcryptGenerateFromPassword password with
  | (_, some err) => ("", some err)
  | (hash, none) => (hash, none)

def GetUserById (s : service) (id : UUID) : Traced (User × Option GoError) :=
  Traced.call (.usersGetUserById id) (s.repository.GetUserById id)

def GetUserByEmail (s : service) (email : String) : Traced (User × Option GoError) :=
  Traced.call (.usersGetUserByEmail email) (s.repository.GetUserByEmail email)

def ChangePassword (rt : Runtime) (s : service) (id : UUID) (newPassword oldPassword : String) :
    Traced (Option GoError) :=
  (s.GetUserById id).bind fun r =>
    match r with
    | (_, some err) => Traced.pure (some err)
    | (user, none) =>
      if ¬ password.Compare rt user.Password oldPassword then
        Traced.pure (some ErrPasswordsDidNotMatch)
      else
        match hashPassword rt newPassword with
        | (_, some err) => Traced.pure (some err)
        | (hash, none) =>
          (Traced.call (.usersUpdateUser id [("password", .str hash)])
              (s.repository.UpdateUser id [("password", .str hash)])).bind fun u =>
            match u with
            | (_, some err) => Traced.pure (some err)
            | (_, none) => Traced.pure none

def CreateUser (rt : Runtime) (s : service) (user : User) : Traced (User × Option GoError) :=
  match rt.bcryptGenerateFromPassword user.Password with
  | (_, some err) => Traced.pure ({}, some err)
  | (hashedPassword, none) =>
    (uuidMust rt.uuidNewV4).bind fun id =>
      let user := { user with Id := id }
      let user := { user with Password := hashedPassword }
      let user := { user with CreatedAt := rt.timeNow }
      (Traced.call (.usersCreateUser user) (s.repository.CreateUser user)).bind fun c =>
        match c with
        | (_, some err) => Traced.pure ({}, some err)
        | (createdUser, none) => Traced.pure (createdUser, none)

def UpdateUser (_s : service) (_id : UUID) (_fieldValue : List (String × GoAny)) :
    Traced (User × Option GoError) :=
  Traced.goPanic "implement me"

def DeleteUser (s : service) (id : UUID) : Traced (Option GoError) :=
  (Traced.call (.usersDeleteUser id) (s.repository.DeleteUser id)).bind fun r =>
    match r with
    | some err => Traced.pure (some err)
    | none => Traced.pure none

end service

end users

/-! ## Package `auth` -/

namespace auth

/-- The struct `pgSession`. -/
structure pgSession where
  id : String := ""
  userId : pgtypeUUID := {}
  expiresOn : pgtypeTimestamp := {}
  deriving DecidableEq, Repr

/-- The interface `auth.Repository`: each method either panics or returns. -/
structure Repository where
  CreateSession : Session → Except String (Session × Option GoError)
  GetSessionById : String → Except String (Session × Option GoError)
  GetSessionsByUserId : UUID → Except String (List Session × Option GoError)
  DeleteSession : String → Except String (Option GoError)
  DeleteSessionsByUserId : UUID → List String → Except String (Option GoError)

/-- One step of a `pgx.Rows` iteration for which `rows.Next()` is true: the value of
`rows.Err()` there and the outcome of `rows.Scan`. -/
structure Row where
  err : Option GoError := none
  scan : pgSession × Option GoError
  deriving DecidableEq

/-- The answers of the `*pgxpool.Pool` to the statements of the sessions repository. -/
structure Pool where
  /-- The call `Query(ctx, query, args...)`: the rows it iterates over and the error. -/
  Query : (query : String) → (args : List GoAny) → List Row × Option GoError
  /-- The call `QueryRow(ctx, query, args...).Scan(...)`: the scanned row and the error. -/
  QueryRowScan : (query : String) → (args : List GoAny) → pgSession × Option GoError
  /-- The call `Exec(ctx, query, args...)`: its error. -/
  Exec : (query : String) → (args : List GoAny) → Option GoError

/-- The `Exec` of a pool of answers as a state transformer: there is no state to change,
the error is the pool's answer. -/
def Pool.execStateless (db : Pool) (query : String) (args : List GoAny) (u : Unit) :
    Unit × Option GoError :=
  (u, db.Exec query args)

def postgresRepositorySource : String := "auth.repo.pg"

def fromPGSession (session : pgSession) : Session × Option GoError :=
  match uuidFromBytes session.userId.Bytes with
  | (_, some err) => ({}, some err)
  | (userId, none) =>
    ({ Id := session.id, UserId := userId, ExpiresOn := session.expiresOn.Time }, none)

def toPGSession (session : Session) : pgSession :=
  { id := session.Id, userId := { Bytes := session.UserId },
    expiresOn := { Time := session.ExpiresOn } }

/-- The struct `postgresRepository` of package `auth`. -/
structure postgresRepository where
  db : Pool

namespace postgresRepository

def CreateSession (r : postgresRepository) (session : Session) : Session × Option GoError :=
  let op := postgresRepositorySource ++ ".CreateSession"
  let query := "\nINSERT INTO auth_sessions\n\t(id, user_id, expires_on) \n\tVALUES ($1, $2, $3)\n" ++
    "\tRETURNING id, user_id, expires_on;\n"
  let sessionToCreate := toPGSession session
  match r.db.QueryRowScan query
      [.str sessionToCreate.id,
       .pgUUID sessionToCreate.userId.Bytes sessionToCreate.userId.Valid,
       .pgTimestamp sessionToCreate.expiresOn.Time sessionToCreate.expiresOn.Valid] with
  | (_, some err) => ({}, some (.wrapW op err))
  | (createdSession, none) => fromPGSession createdSession

/-- The `for rows.Next()` loop of `getSessionsByField`, from the slice built so far. -/
def scanRows (op : String) : List Row → List Session → List Session × Option GoError
  | [], sessions => (sessions, none)
  | row :: rest, sessions =>
    match row.err with
    | some err => ([], some err)
    | none =>
      match row.scan with
      | (_, some err) => ([], some err)
      | (pgSession, none) =>
        match fromPGSession pgSession with
        | (_, some err) => ([], some (.wrapW op err))
        | (session, none) => scanRows op rest (sessions ++ [session])

def getSessionsByField (r : postgresRepository) (field : String) (value : GoAny) :
    List Session × Option GoError :=
  let op := postgresRepositorySource ++ ".getSessionsByField"
  let query := "\nSELECT id, user_id, expires_on FROM auth_sessions WHERE " ++ field ++ " = $1"
  match r.db.Query query [value] with
  | (_, some err) => ([], some (.wrapW op err))
  | (rows, none) => scanRows op rows []

/-- The method `GetSessionById`; the index expression `sessions[0]` panics on an empty
slice. -/
def GetSessionById (r : postgresRepository) (value : String) :
    Except String (Session × Option GoError) :=
  let op := postgresRepositorySource ++ ".GetSessionById"
  match r.getSessionsByField "value" (.str value) with
  | (_, some err) => .ok ({}, some (.fmtE op err))
  | (sessions, none) =>
    match sessions with
    | [] => .error "runtime error: index out of range [0] with length 0"
    | session :: _ => .ok (session, none)

def GetSessionsByUserId (r : postgresRepository) (userId : UUID) :
    List Session × Option GoError :=
  r.getSessionsByField "user_id" (.uuid userId)

/-- The method `DeleteSession`, with the database as an explicit state: `exec` is the
call `r.db.Exec(ctx, query, args...)` as a transformer of the database state, and the
state the call leaves comes back next to the error the method returns. -/
def DeleteSession {σ : Type} (exec : String → List GoAny → σ → σ × Option GoError)
    (sessionValue : String) (db : σ) : σ × Option GoError :=
  let op := postgresRepositorySource ++ ".DeleteSession"
  let query := "DELETE FROM auth_sessions WHERE id = $1"
  match exec query [.str sessionValue] db with
  | (db, some err) => (db, some (.wrapW op err))
  | (db, none) => (db, none)

/-- The statement text that `DeleteSessionsByUserId` passes to `Exec`. -/
def deleteSessionsByUserIdQuery (exceptValues : List String) : String :=
  let query := "DELETE FROM auth_sessions WHERE user_id = $1"
  if exceptValues.length > 0 then
    let placeholders :=
      (List.range exceptValues.length).map fun j => "$" ++ fmtInt ((j : Int) + 1)
    "[" ++ query ++ "] AND value NOT IN (" ++ stringsJoin placeholders ", " ++ ")"
  else query

def DeleteSessionsByUserId (r : postgresRepository) (userId : UUID)
    (exceptValues : List String) : Option GoError :=
  let op := postgresRepositorySource ++ ".DeleteSessionsByUserId"
  match r.db.Exec (deleteSessionsByUserIdQuery exceptValues)
      [.uuid userId, .strs exceptValues] with
  | some err => some (.wrapW op err)
  | none => none

def DeleteExpiredSessions (r : postgresRepository) : Option GoError :=
  let op := postgresRepositorySource ++ ".DeleteExpiredSessions"
  let query := "DELETE FROM auth_sessions WHERE expires_on < CURRENT_TIMESTAMP"
  match r.db.Exec query [] with
  | some err => some (.wrapW op err)
  | none => none

end postgresRepository

/-- The function `NewPostgresRepository`: the struct seen through the interface. -/
def NewPostgresRepository (db : Pool) : Repository :=
  let r : postgresRepository := { db := db }
  { CreateSession := fun session => .ok (r.CreateSession session)
    GetSessionById := fun value => r.GetSessionById value
    GetSessionsByUserId := fun userId => .ok (r.GetSessionsByUserId userId)
    DeleteSession := fun sessionValue =>
      .ok (postgresRepository.DeleteSession r.db.execStateless sessionValue ()).2
    DeleteSessionsByUserId := fun userId exceptIds =>
      .ok (r.DeleteSessionsByUserId userId exceptIds) }

/-- The struct `service` of package `auth`. -/
structure service where
  sessionRepository : Repository
  usersRepository : users.Repository
  sessionLifeTime : Duration

/-- The function `hex.EncodeToString`. -/
def hexEncodeToString (bytes : List (Fin 256)) : String :=
  String.mk (bytes.flatMap fun b => [Nat.digitChar (b.val / 16), Nat.digitChar (b.val % 16)])

namespace service

def generateSessionIdBytes (rt : Runtime) : SessionIdBytes × Option GoError :=
  let id := rt.randRead.buf
  match rt.randRead.err with
  | some err => (id, some err)
  | none =>
    if rt.randRead.n ≠ (sessionIdSize : Int) then
      (id, some (.errorf ("expected " ++ fmtInt sessionIdSize ++ " bytes, got " ++
        fmtInt rt.randRead.n)))
    else (id, none)

def sessionIdBytesToHexString (sessionIdBytes : SessionIdBytes) : String :=
  hexEncodeToString sessionIdBytes.val

def CreateSession (rt : Runtime) (s : service) (userId : UUID) :
    Traced (Session × Option GoError) :=
  match generateSessionIdBytes rt with
  | (_, some err) => Traced.pure ({}, some err)
  | (sessionIdBytes, none) =>
    let sessionId := sessionIdBytesToHexString sessionIdBytes
    let session : Session :=
      { Id := sessionId, UserId := userId, ExpiresOn := rt.timeNow + s.sessionLifeTime }
    (Traced.call (.authCreateSession session) (s.sessionRepository.CreateSession session)).bind
      fun c =>
        match c with
        | (_, some err) => Traced.pure ({}, some err)
        | (createdSession, none) => Traced.pure (createdSession, none)

def GetSessionById (s : service) (id : String) : Traced (Session × Option GoError) :=
  (Traced.call (.authGetSessionById id) (s.sessionRepository.GetSessionById id)).bind fun c =>
    match c with
    | (_, some err) => Traced.pure ({}, some err)
    | (session, none) => Traced.pure (session, none)

def GetSessionsByUserId (s : service) (userId : UUID) :
    Traced (List Session × Option GoError) :=
  (Traced.call (.authGetSessionsByUserId userId)
      (s.sessionRepository.GetSessionsByUserId userId)).bind fun c =>
    match c with
    | (_, some err) => Traced.pure ([], some err)
    | (sessions, none) => Traced.pure (sessions, none)

def DeleteSessionByUserId (_s : service) (_userId : UUID) (_exceptIds : List String) :
    Traced (Option GoError) :=
  Traced.goPanic "implement me"

def DeleteSessionById (s : service) (sessionId : String) : Traced (Option GoError) :=
  (Traced.call (.authDeleteSession sessionId)
      (s.sessionRepository.DeleteSession sessionId)).bind fun r =>
    match r with
    | some err => Traced.pure (some err)
    | none => Traced.pure none

def GetUserBySessionId (s : service) (sessionId : String) :
    Traced (users.User × Option GoError) :=
  (Traced.call (.authGetSessionById sessionId)
      (s.sessionRepository.GetSessionById sessionId)).bind fun c =>
    match c with
    | (_, some err) => Traced.pure ({}, some err)
    | (session, none) =>
      Traced.call (.usersGetUserById session.UserId)
        (s.usersRepository.GetUserById session.UserId)

end service

end auth

/-! ## The sessions table as a state

The pool answers of `auth.Pool` carry no state. To speak about the table before and
after a deletion, the database is modelled as the list of the rows of `auth_sessions`;
the repository method `DeleteSession` runs against it as against any database state, and
the table after a run of the service is the table after the repository calls the
service made. -/

namespace auth

/-- The rows of table `auth_sessions`. -/
abbrev Table := List Session

/-- The database executing a statement on the table: the rows afterwards and the error
of `Exec`. `DELETE FROM auth_sessions WHERE id = $1` with one bound string removes every
row with that id and reports no error, whether or not a row matched. Any other
statement is outside this model: the table is left as it is and an error is reported. -/
def Table.Exec (query : String) (args : List GoAny) (table : Table) :
    Table × Option GoError :=
  if query = "DELETE FROM auth_sessions WHERE id = $1" then
    match args with
    | [.str value] => (table.filter fun row => decide (row.Id ≠ value), none)
    | _ => (table, some (.external "statement arguments do not match its parameters"))
  else (table, some (.external "statement outside the model"))

/-- The answers the database gives while its table is `table`: the errors of
`Table.Exec`. It serves no queries. The rows a statement leaves are not part of a pool
of answers; they are what `Table.afterCall` computes. -/
def Table.pool (table : Table) : Pool where
  Query := fun _ _ => ([], some (.external "statement outside the model"))
  QueryRowScan := fun _ _ => ({}, some (.external "statement outside the model"))
  Exec := fun query args => (Table.Exec query args table).2

/-- The table after the postgres repository has served one call of the interface: for
`DeleteSession` the state that the repository method leaves when its `Exec` is the
database. The other calls are outside this model (`none`). -/
def Table.afterCall (table : Table) : Call → Option Table
  | .authDeleteSession sessionValue =>
    some (postgresRepository.DeleteSession Table.Exec sessionValue table).1
  | _ => none

/-- The table after the postgres repository has served the calls in order. -/
def Table.afterCalls : List Call → Table → Option Table
  | [], table => some table
  | c :: rest, table => (Table.afterCall table c).bind (Table.afterCalls rest)

/-- The service `s` with the postgres repository over the database, its table being
`table`, as session repository. -/
def Table.wire (table : Table) (s : service) : service :=
  { s with sessionRepository := NewPostgresRepository (Table.pool table) }

/-- One run of `service.DeleteSessionById` against the database: the table after the
repository calls the service made, and what the service returned. -/
def Table.runDeleteSessionById (s : service) (sessionId : String) (table : Table) :
    Option Table × Except String (Option GoError) :=
  (Table.afterCalls (service.DeleteSessionById (Table.wire table s) sessionId).calls table,
   (service.DeleteSessionById (Table.wire table s) sessionId).out)

end auth

/-! ## Package `net/http`, as far as the handlers use it -/

namespace http

def StatusOK : Nat := 200
def StatusBadRequest : Nat := 400
def StatusUnauthorized : Nat := 401
def StatusNotFound : Nat := 404
def StatusInternalServerError : Nat := 500
def StatusNotImplemented : Nat := 501

/-- The type `http.SameSite`. -/
inductive SameSite where
  | unset
  | SameSiteDefaultMode
  | SameSiteLaxMode
  | SameSiteStrictMode
  | SameSiteNoneMode
  deriving DecidableEq, Repr

/-- The fields of `http.Cookie` that the handlers set. -/
structure Cookie where
  Name : String := ""
  Value : String := ""
  Path : String := ""
  Expires : Time := 0
  MaxAge : Int := 0
  HttpOnly : Bool := false
  SameSite : SameSite := .unset
  deriving DecidableEq, Repr

/-- One call on the `http.ResponseWriter`, in the order the handler makes them. -/
inductive WriterCall where
  | WriteHeader (statusCode : Nat)
  | Write (body : String)
  | SetCookie (cookie : Cookie)
  deriving DecidableEq, Repr

/-- The answers of the `http.ResponseWriter`: the error of `Write`. -/
structure ResponseWriter where
  Write : (body : String) → Option GoError

/-- What a handler reads of the `*http.Request`, its body being JSON for a value of
type `α`. `GetBody` is the struct field of that name: `none` when the field is nil,
otherwise the error of the call or else the outcome of `JSONFromReaderTo` on the reader
it returns. -/
structure Request (α : Type) where
  GetBody : Option (Except GoError (Except GoError α))

end http

/-! ## Package `internal/api/handlers` -/

namespace handlers

/-- The struct `userLogin`. -/
structure userLogin where
  Email : String := ""
  Password : String := ""
  deriving DecidableEq, Repr

/-- The struct `userRegister`. -/
structure userRegister where
  Email : String := ""
  Password : String := ""
  deriving DecidableEq, Repr

/-- The struct `AuthHandler`, its two services being the implementations of the
packages `auth` and `users`. `SessionIdCookieName` is the constant of that name of
package `internal/api`, whose declaration is not among the sources. -/
structure AuthHandler where
  authService : auth.service
  usersService : users.service
  SessionIdCookieName : String

/-- The outcome of serving one request: the repository calls made, the calls made on
the response writer, and the message of the panic that ended the handler, if any. -/
structure Served where
  calls : List Call
  response : List http.WriterCall
  panicked : Option String := none
  deriving DecidableEq, Repr

namespace AuthHandler

def Register (rt : Runtime) (h : AuthHandler) (w : http.ResponseWriter)
    (r : http.Request userRegister) : Served :=
  let begun := [http.WriterCall.WriteHeader http.StatusNotImplemented]
  match r.GetBody with
  | none =>
    { calls := [], response := begun,
      panicked := some "runtime error: invalid memory address or nil pointer dereference" }
  | some (.error _) =>
    { calls := [], response := begun ++ [.WriteHeader http.StatusBadRequest] }
  | some (.ok (.error _)) =>
    { calls := [], response := begun ++ [.WriteHeader http.StatusBadRequest] }
  | some (.ok (.ok userToCreate)) =>
    let g := h.usersService.GetUserByEmail userToCreate.Email
    match g.out with
    | .error msg => { calls := g.calls, response := begun, panicked := some msg }
    | .ok (_, err) =>
      if err ≠ none ∧ ¬ (err.any fun e => errorsIs e users.ErrUserNotFound) then
        let begun := begun ++ [.WriteHeader http.StatusBadRequest]
        match rt.jsonMarshal (.BadRequest "user already exists") with
        | (_, some _) =>
          { calls := g.calls,
            response := begun ++ [.WriteHeader http.StatusInternalServerError] }
        | (response, none) =>
          match w.Write response with
          | some _ =>
            { calls := g.calls,
              response := begun ++ [.Write response,
                .WriteHeader http.StatusInternalServerError] }
          | none => { calls := g.calls, response := begun ++ [.Write response] }
      else
        let c := users.service.CreateUser rt h.usersService
          { Email := userToCreate.Email, Password := userToCreate.Password }
        match c.out with
        | .error msg =>
          { calls := g.calls ++ c.calls, response := begun, panicked := some msg }
        | .ok (_, some _) =>
          let begun := begun ++ [.WriteHeader http.StatusInternalServerError]
          match rt.jsonMarshal (.BadRequest "cannot create user") with
          | (_, some _) => { calls := g.calls ++ c.calls, response := begun }
          | (response, none) =>
            { calls := g.calls ++ c.calls, response := begun ++ [.Write response] }
        | .ok (createdUser, none) =>
          match rt.jsonMarshal (.userResponse createdUser.Id createdUser.Email
              createdUser.CreatedAt createdUser.IsActive) with
          | (_, some _) =>
            { calls := g.calls ++ c.calls,
              response := begun ++ [.WriteHeader http.StatusInternalServerError] }
          | (response, none) =>
            { calls := g.calls ++ c.calls, response := begun ++ [.Write response] }

def Login (rt : Runtime) (h : AuthHandler) (_w : http.ResponseWriter)
    (r : http.Request userLogin) : Served :=
  match r.GetBody with
  | none =>
    { calls := [], response := [],
      panicked := some "runtime error: invalid memory address or nil pointer dereference" }
  | some (.error _) => { calls := [], response := [.WriteHeader http.StatusBadRequest] }
  | some (.ok (.error _)) => { calls := [], response := [.WriteHeader http.StatusBadRequest] }
  | some (.ok (.ok userData)) =>
    let g := h.usersService.GetUserByEmail userData.Email
    match g.out with
    | .error msg => { calls := g.calls, response := [], panicked := some msg }
    | .ok (_, some err) =>
      if errorsIs err users.ErrUserNotFound then
        { calls := g.calls, response := [.WriteHeader http.StatusNotFound] }
      else { calls := g.calls, response := [.WriteHeader http.StatusInternalServerError] }
    | .ok (dbUser, none) =>
      if ¬ password.Compare rt userData.Password dbUser.Password then
        { calls := g.calls, response := [.WriteHeader http.StatusUnauthorized] }
      else
        let c := auth.service.CreateSession rt h.authService dbUser.Id
        match c.out with
        | .error msg => { calls := g.calls ++ c.calls, response := [], panicked := some msg }
        | .ok (_, some _) =>
          { calls := g.calls ++ c.calls,
            response := [.WriteHeader http.StatusInternalServerError] }
        | .ok (session, none) =>
          let cookie : http.Cookie :=
            { Name := h.SessionIdCookieName, Value := session.Id, Path := "/",
              Expires := session.ExpiresOn, HttpOnly := true, SameSite := .SameSiteLaxMode }
          { calls := g.calls ++ c.calls,
            response := [.SetCookie cookie, .WriteHeader http.StatusOK] }

end AuthHandler

end handlers

/-! ## A concrete deployment

One stored user and one stored session behind the two postgres repositories, used to
evaluate the code on explicit inputs. -/

namespace Example

/-- A runtime whose bcrypt stand-in hashes `p` to `bcrypt:p`. -/
def runtime : Runtime where
  bcryptGenerateFromPassword := fun password => ("bcrypt:" ++ password, none)
  bcryptCompareHashAndPassword := fun hash password =>
    if hash = "bcrypt:" ++ password then none
    else some (.external "hashedPassword is not the hash of the given password")
  uuidNewV4 := (7, none)
  timeNow := 1000
  randRead := { buf := ⟨List.replicate 24 171, by decide⟩, n := 24, err := none }
  jsonMarshal := fun v =>
    match v with
    | .BadRequest Message => ("message: " ++ Message, none)
    | .userResponse _ Email _ _ => ("user: " ++ Email, none)

/-- The same runtime, except that the random source fills only 10 of the 24 bytes. -/
def shortReadRuntime : Runtime :=
  { runtime with
    randRead := { buf := ⟨List.replicate 10 171 ++ List.replicate 14 0, by decide⟩,
                  n := 10, err := none } }

/-- The same runtime, except that hashing fails. -/
def failingHashRuntime : Runtime :=
  { runtime with
    bcryptGenerateFromPassword := fun _ => ("", some (.external "bcrypt: password too long")) }

/-- The stored user: registered as `a@x.com` with password `pw1`. -/
def alice : users.User :=
  { Id := 1, Email := "a@x.com", Password := "bcrypt:pw1", IsActive := true, CreatedAt := 10 }

/-- A users table that holds `alice` only and accepts every statement, also the
statements that a PostgreSQL server refuses as malformed. -/
def usersPool : users.Pool where
  QueryRowScan := fun _ args =>
    match args with
    | [.uuid 1] => (users.toPGUser alice, none)
    | [.str "a@x.com"] => (users.toPGUser alice, none)
    | [_] => ({}, some users.pgxErrNoRows)
    | _ => ({}, none)
  Exec := fun _ _ => none

/-- The stored session: token `t1` of `alice`, expired at instant `500`. -/
def staleSession : auth.Session := { Id := "t1", UserId := 1, ExpiresOn := 500 }

/-- A sessions table that holds `staleSession` only and accepts every statement. -/
def sessionsPool : auth.Pool where
  Query := fun _ args =>
    match args with
    | [.str "t1"] => ([{ scan := (auth.toPGSession staleSession, none) }], none)
    | [.uuid 1] => ([{ scan := (auth.toPGSession staleSession, none) }], none)
    | _ => ([], none)
  QueryRowScan := fun _ args =>
    match args with
    | [.str id, .pgUUID u _, .pgTimestamp t _] =>
      ({ id := id, userId := { Bytes := u, Valid := true },
         expiresOn := { Time := t, Valid := true } }, none)
    | _ => ({}, some (.external "bad statement"))
  Exec := fun _ _ => none

def usersService : users.service := { repository := users.NewPostgresRepository usersPool }

def authService : auth.service :=
  { sessionRepository := auth.NewPostgresRepository sessionsPool
    usersRepository := users.NewPostgresRepository usersPool
    sessionLifeTime := 86400 }

def authHandler : handlers.AuthHandler :=
  { authService := authService, usersService := usersService, SessionIdCookieName := "session_id" }

def responseWriter : http.ResponseWriter := { Write := fun _ => none }

end Example

/-! ## Theorems -/

/-! ### Login -/

open handlers in
/-- C1, as the code has it: for a login request whose body decodes, an email for which
the user lookup reports user-not-found is answered with status 404 and an existing
email whose password does not verify with status 401; in both cases the handler makes
no other call on the response writer (no cookie is set) and creates no session. -/
theorem Login_not_found_versus_unauthorized (rt : Runtime) (h : AuthHandler)
    (w : http.ResponseWriter) (unknown known : userLogin) (u dbUser : users.User)
    (err : GoError)
    (hUnknown : h.usersService.repository.GetUserByEmail unknown.Email = .ok (u, some err))
    (hNotFound : errorsIs err users.ErrUserNotFound = true)
    (hKnown : h.usersService.repository.GetUserByEmail known.Email = .ok (dbUser, none))
    (hWrong : password.Compare rt known.Password dbUser.Password = false) :
    AuthHandler.Login rt h w { GetBody := some (.ok (.ok unknown)) } =
        { calls := [.usersGetUserByEmail unknown.Email],
          response := [.WriteHeader http.StatusNotFound] } ∧
      AuthHandler.Login rt h w { GetBody := some (.ok (.ok known)) } =
        { calls := [.usersGetUserByEmail known.Email],
          response := [.WriteHeader http.StatusUnauthorized] } := by
  constructor
  · simp [AuthHandler.Login, users.service.GetUserByEmail, Traced.call, hUnknown, hNotFound]
  · simp [AuthHandler.Login, users.service.GetUserByEmail, Traced.call, hKnown, hWrong]

open handlers in
/-- C1, witness: the theorem at the concrete deployment, for the unregistered email
`ghost@x.com` and for `a@x.com` with a wrong password. -/
theorem Login_not_found_versus_unauthorized_witness :
    AuthHandler.Login Example.runtime Example.authHandler Example.responseWriter
        { GetBody := some (.ok (.ok { Email := "ghost@x.com", Password := "pw1" })) } =
        { calls := [.usersGetUserByEmail "ghost@x.com"],
          response := [.WriteHeader http.StatusNotFound] } ∧
      AuthHandler.Login Example.runtime Example.authHandler Example.responseWriter
        { GetBody := some (.ok (.ok { Email := "a@x.com", Password := "wrong" })) } =
        { calls := [.usersGetUserByEmail "a@x.com"],
          response := [.WriteHeader http.StatusUnauthorized] } :=
  Login_not_found_versus_unauthorized Example.runtime Example.authHandler
    Example.responseWriter { Email := "ghost@x.com", Password := "pw1" }
    { Email := "a@x.com", Password := "wrong" } {} Example.alice users.ErrUserNotFound
    (by decide) (by decide) (by decide) (by decide)

open handlers in
/-- C1, counterexample: `ghost@x.com` has no user record, `a@x.com` has one and
`wrong` does not verify against its hash, yet the two login responses differ: the
first carries status 404, the second status 401. -/
theorem Login_responses_differ :
    Example.usersService.repository.GetUserByEmail "ghost@x.com" =
        .ok ({}, some users.ErrUserNotFound) ∧
      Example.usersService.repository.GetUserByEmail "a@x.com" = .ok (Example.alice, none) ∧
      password.Compare Example.runtime "wrong" Example.alice.Password = false ∧
      (AuthHandler.Login Example.runtime Example.authHandler Example.responseWriter
        { GetBody := some (.ok (.ok { Email := "ghost@x.com", Password := "wrong" })) }).response
        = [.WriteHeader 404] ∧
      (AuthHandler.Login Example.runtime Example.authHandler Example.responseWriter
        { GetBody := some (.ok (.ok { Email := "a@x.com", Password := "wrong" })) }).response
        = [.WriteHeader 401] ∧
      (AuthHandler.Login Example.runtime Example.authHandler Example.responseWriter
        { GetBody := some (.ok (.ok { Email := "ghost@x.com", Password := "wrong" })) }).response
        ≠ (AuthHandler.Login Example.runtime Example.authHandler Example.responseWriter
        { GetBody := some (.ok (.ok { Email := "a@x.com", Password := "wrong" })) }).response := by
  decide

/-! ### Resolving a session -/

/-- C2, as the code has it: `GetUserBySessionId` never consults the clock or the
session's `ExpiresOn`. Whenever the session lookup returns a session `S` without error,
it looks up `S.UserId` in the users repository and returns exactly what that lookup
returns, whatever `S.ExpiresOn` is; no session-expired error exists. -/
theorem GetUserBySessionId_returns_owner_lookup (s : auth.service) (sessionId : String)
    (S : auth.Session)
    (hStored : s.sessionRepository.GetSessionById sessionId = .ok (S, none)) :
    auth.service.GetUserBySessionId s sessionId =
      { calls := [.authGetSessionById sessionId, .usersGetUserById S.UserId],
        out := s.usersRepository.GetUserById S.UserId } := by
  simp [auth.service.GetUserBySessionId, hStored, Traced.bind, Traced.call]

/-- C2, witness: the stored session `t1` resolves to the lookup of its owner. -/
theorem GetUserBySessionId_returns_owner_lookup_witness :
    auth.service.GetUserBySessionId Example.authService "t1" =
      { calls := [.authGetSessionById "t1", .usersGetUserById Example.staleSession.UserId],
        out := Example.authService.usersRepository.GetUserById Example.staleSession.UserId } :=
  GetUserBySessionId_returns_owner_lookup Example.authService "t1" Example.staleSession
    (by decide)

/-- C2, counterexample: the stored session `t1` has `ExpiresOn = 500`, the clock reads
`1000`, and `GetUserBySessionId` still returns the owning user with a nil error. -/
theorem GetUserBySessionId_expired_session_resolves :
    Example.authService.sessionRepository.GetSessionById "t1" =
        .ok (Example.staleSession, none) ∧
      Example.runtime.timeNow ≥ Example.staleSession.ExpiresOn ∧
      (auth.service.GetUserBySessionId Example.authService "t1").out =
        .ok (Example.alice, none) := by
  decide

/-- C3, at the failing input: for the token `nope` the sessions query yields zero rows
and a nil error; the repository's `GetSessionById` then panics on `sessions[0]`, and so
do the service's `GetSessionById` and `GetUserBySessionId`. -/
theorem GetSessionById_panics_on_unknown_token :
    Example.sessionsPool.Query
        "\nSELECT id, user_id, expires_on FROM auth_sessions WHERE value = $1" [.str "nope"] =
        ([], none) ∧
      auth.postgresRepository.GetSessionById { db := Example.sessionsPool } "nope" =
        .error "runtime error: index out of range [0] with length 0" ∧
      (auth.service.GetSessionById Example.authService "nope").out =
        .error "runtime error: index out of range [0] with length 0" ∧
      (auth.service.GetUserBySessionId Example.authService "nope").out =
        .error "runtime error: index out of range [0] with length 0" := by
  decide

/-! ### Changing a password -/

/-- C4, at the failing input: `alice` has the hash of `pw1` stored and `pw1` verifies
against it, yet `ChangePassword` with old password `pw1` returns
`ErrPasswordsDidNotMatch` without calling the store update, because it passes the
stored hash as the plaintext and the old password as the hash. Conversely the old
password `bcrypt:bcrypt:pw1`, which does not verify against the stored hash, is
accepted and the update is issued. -/
theorem ChangePassword_compares_with_swapped_arguments :
    Example.usersService.repository.GetUserById 1 = .ok (Example.alice, none) ∧
      password.Compare Example.runtime "pw1" Example.alice.Password = true ∧
      users.service.ChangePassword Example.runtime Example.usersService 1 "new" "pw1" =
        { calls := [.usersGetUserById 1], out := .ok (some users.ErrPasswordsDidNotMatch) } ∧
      password.Compare Example.runtime "bcrypt:bcrypt:pw1" Example.alice.Password = false ∧
      users.service.ChangePassword Example.runtime Example.usersService 1 "new"
          "bcrypt:bcrypt:pw1" =
        { calls := [.usersGetUserById 1,
                    .usersUpdateUser 1 [("password", .str "bcrypt:new")]],
          out := .ok none } := by
  decide

/-! ### Registration -/

open handlers in
/-- C5, at the failing input: `a@x.com` already belongs to `alice` and the lookup
returns her with a nil error, yet `Register` goes on to call `CreateUser` for that
email and never writes the duplicate-email response. -/
theorem Register_creates_user_for_registered_email :
    Example.usersService.repository.GetUserByEmail "a@x.com" = .ok (Example.alice, none) ∧
      AuthHandler.Register Example.runtime Example.authHandler Example.responseWriter
          { GetBody := some (.ok (.ok { Email := "a@x.com", Password := "pw2" })) } =
        { calls := [.usersGetUserByEmail "a@x.com",
                    .usersCreateUser { Id := 7, Email := "a@x.com", Password := "bcrypt:pw2",
                                       IsActive := false, CreatedAt := 1000 }],
          response := [.WriteHeader http.StatusNotImplemented, .Write "user: a@x.com"] } := by
  decide

/-! ### Revoking the sessions of a user -/

/-- C6, at every input: the service's `DeleteSessionByUserId` panics with
`implement me` before it calls the store. -/
theorem DeleteSessionByUserId_panics (s : auth.service) (userId : UUID)
    (exceptIds : List String) :
    auth.service.DeleteSessionByUserId s userId exceptIds =
      { calls := [], out := .error "implement me" } := rfl

/-! ### Deleting a user -/

/-- C7, at the failing input: the `DELETE` for user `1` executes without error, yet
the repository's `DeleteUser` returns the non-nil value of
`fmt.Errorf("[%s]: %e", op, nil)`, and the service's `DeleteUser` returns it too. -/
theorem DeleteUser_returns_error_on_success :
    Example.usersPool.Exec "DELETE FROM users WHERE id = $1" [.uuid 1] = none ∧
      users.postgresRepository.DeleteUser { db := Example.usersPool } 1 =
        some (.fmtENil "users.repo.pg.DeleteUser") ∧
      users.service.DeleteUser Example.usersService 1 =
        { calls := [.usersDeleteUser 1],
          out := .ok (some (.fmtENil "users.repo.pg.DeleteUser")) } := by
  decide

/-! ### Creating a session -/

/-- C8: when the read of the random source reports an error or a byte count other than
24, session-id generation returns an error, and `CreateSession` returns the zero session
with an error without calling the store. -/
theorem CreateSession_requires_full_random_read (rt : Runtime) (s : auth.service)
    (userId : UUID)
    (hRead : ¬ (rt.randRead.err = none ∧ rt.randRead.n = 24)) :
    (∃ err, (auth.service.generateSessionIdBytes rt).2 = some err) ∧
      ∃ err, auth.service.CreateSession rt s userId =
        { calls := [], out := .ok ({}, some err) } := by
  unfold auth.service.CreateSession auth.service.generateSessionIdBytes
  cases hErr : rt.randRead.err with
  | some e => exact ⟨⟨e, rfl⟩, ⟨e, rfl⟩⟩
  | none =>
    have hn : rt.randRead.n ≠ ((auth.sessionIdSize : Nat) : Int) := by
      intro hEq
      exact hRead ⟨hErr, by simpa [auth.sessionIdSize] using hEq⟩
    simp only [hn, ne_eq, not_false_eq_true, if_true]
    exact ⟨⟨_, rfl⟩, ⟨_, rfl⟩⟩

/-- C8, witness: a read that fills 10 bytes and reports no error. -/
theorem CreateSession_requires_full_random_read_witness :
    (∃ err, (auth.service.generateSessionIdBytes Example.shortReadRuntime).2 = some err) ∧
      ∃ err, auth.service.CreateSession Example.shortReadRuntime Example.authService 1 =
        { calls := [], out := .ok ({}, some err) } :=
  CreateSession_requires_full_random_read Example.shortReadRuntime Example.authService 1
    (by decide)

/-- C9: when session-id generation succeeds, `CreateSession` calls the store exactly
once, with the session whose `UserId` is the given user and whose `ExpiresOn` is the
current time plus the configured lifetime (its `Id` being the hex text of the generated
bytes); and when the store answers with a session and no error, `CreateSession` returns
that session and no error. -/
theorem CreateSession_hands_session_to_store (rt : Runtime) (s : auth.service)
    (userId : UUID)
    (hGen : (auth.service.generateSessionIdBytes rt).2 = none) :
    (auth.service.CreateSession rt s userId).calls =
        [.authCreateSession
          { Id := auth.service.sessionIdBytesToHexString (auth.service.generateSessionIdBytes rt).1,
            UserId := userId,
            ExpiresOn := rt.timeNow + s.sessionLifeTime }] ∧
      ∀ created : auth.Session,
        s.sessionRepository.CreateSession
            { Id := auth.service.sessionIdBytesToHexString
                (auth.service.generateSessionIdBytes rt).1,
              UserId := userId,
              ExpiresOn := rt.timeNow + s.sessionLifeTime } = .ok (created, none) →
          (auth.service.CreateSession rt s userId).out = .ok (created, none) := by
  unfold auth.service.CreateSession
  rcases hPair : auth.service.generateSessionIdBytes rt with ⟨bytes, err⟩
  rw [hPair] at hGen
  simp only at hGen
  subst hGen
  refine ⟨?_, ?_⟩
  · simp only [Traced.bind, Traced.call]
    split <;> simp
    split <;> simp [Traced.pure]
  · intro created hStore
    simp [Traced.bind, Traced.call, hStore, Traced.pure]

/-- C9, witness: user `1` at instant `1000` with a lifetime of `86400`. -/
theorem CreateSession_hands_session_to_store_witness :
    (auth.service.CreateSession Example.runtime Example.authService 1).calls =
        [.authCreateSession
          { Id := auth.service.sessionIdBytesToHexString
              (auth.service.generateSessionIdBytes Example.runtime).1,
            UserId := 1,
            ExpiresOn := Example.runtime.timeNow + Example.authService.sessionLifeTime }] ∧
      ∀ created : auth.Session,
        Example.authService.sessionRepository.CreateSession
            { Id := auth.service.sessionIdBytesToHexString
                (auth.service.generateSessionIdBytes Example.runtime).1,
              UserId := 1,
              ExpiresOn := Example.runtime.timeNow + Example.authService.sessionLifeTime } =
            .ok (created, none) →
          (auth.service.CreateSession Example.runtime Example.authService 1).out =
            .ok (created, none) :=
  CreateSession_hands_session_to_store Example.runtime Example.authService 1 (by decide)

/-! ### Updating a user -/

/-- The loop of `UpdateUser` preserves any property of the bound arguments and any
property of the `SET` fragments that the entries of allow-listed fields have. -/
theorem users.postgresRepository.updateUserLoop_invariant (A : GoAny → Prop)
    (F : String → Prop) (fieldValue : List (String × GoAny)) :
    ∀ acc : List GoAny × List String,
      (∀ a ∈ acc.1, A a) → (∀ frag ∈ acc.2, F frag) →
      (∀ field value, (field, value) ∈ fieldValue → field ∈ users.allowedUpdateFields →
        A value ∧ ∀ k : Nat, F (field ++ " = $" ++ fmtInt k ++ ", ")) →
      (∀ a ∈ (users.postgresRepository.updateUserLoop fieldValue acc).1, A a) ∧
        ∀ frag ∈ (users.postgresRepository.updateUserLoop fieldValue acc).2, F frag := by
  induction fieldValue with
  | nil =>
    intro acc hA hF _
    exact ⟨hA, hF⟩
  | cons entry rest ih =>
    rintro ⟨args, fieldsToSet⟩ hA hF hEntries
    obtain ⟨field, value⟩ := entry
    have hRest : ∀ f v, (f, v) ∈ rest → f ∈ users.allowedUpdateFields →
        A v ∧ ∀ k : Nat, F (f ++ " = $" ++ fmtInt k ++ ", ") :=
      fun f v hMem hAllowed => hEntries f v (List.mem_cons_of_mem _ hMem) hAllowed
    unfold users.postgresRepository.updateUserLoop
    by_cases hAllowed : field ∈ users.allowedUpdateFields
    · have hHere := hEntries field value (List.mem_cons_self _ _) hAllowed
      simp only [hAllowed, not_true_eq_false, if_false]
      apply ih _ _ _ hRest
      · intro a ha
        rcases List.mem_append.mp ha with h | h
        · exact hA a h
        · rw [List.mem_singleton.mp h]
          exact hHere.1
      · intro frag hfrag
        rcases List.mem_append.mp hfrag with h | h
        · exact hF frag h
        · rw [List.mem_singleton.mp h]
          have hk := hHere.2 (args ++ [value]).length
          simpa using hk
    · simp only [hAllowed, not_false_eq_true, if_true]
      exact ih _ hA hF hRest

/-- C10, as the code has it: the allow-list of `UpdateUser` is `email`, `is_active`,
`password`. For every field map, each fragment of the `SET` list is either an empty
padding entry or `field = $k, ` for a supplied field on that allow-list, and each bound
argument is a padding nil, the value of a supplied field on that allow-list, or (last)
the user id. A field outside the allow-list therefore contributes neither a `SET`
entry nor a bound value. -/
theorem UpdateUser_applies_only_allowed_fields (id : UUID)
    (fieldValue : List (String × GoAny)) :
    users.allowedUpdateFields = ["email", "is_active", "password"] ∧
      (∀ frag ∈ (users.postgresRepository.updateUserLists fieldValue).2,
        frag = "" ∨ ∃ field value, ∃ k : Nat, (field, value) ∈ fieldValue ∧
          field ∈ users.allowedUpdateFields ∧ frag = field ++ " = $" ++ fmtInt k ++ ", ") ∧
      (∀ a ∈ (users.postgresRepository.updateUserStatement id fieldValue).2,
        a = GoAny.nil ∨ a = GoAny.uuid id ∨
          ∃ field, (field, a) ∈ fieldValue ∧ field ∈ users.allowedUpdateFields) ∧
      (users.postgresRepository.updateUserStatement id fieldValue).1 =
        "UPDATE users SET " ++
          stringsJoin (users.postgresRepository.updateUserLists fieldValue).2 ", " ++
          " WHERE id = $" ++
          fmtInt (users.postgresRepository.updateUserStatement id fieldValue).2.length := by
  have hInv := users.postgresRepository.updateUserLoop_invariant
    (fun a => a = GoAny.nil ∨ ∃ field, (field, a) ∈ fieldValue ∧
      field ∈ users.allowedUpdateFields)
    (fun frag => frag = "" ∨ ∃ field value, ∃ k : Nat, (field, value) ∈ fieldValue ∧
      field ∈ users.allowedUpdateFields ∧ frag = field ++ " = $" ++ fmtInt k ++ ", ")
    fieldValue
    (List.replicate fieldValue.length GoAny.nil, List.replicate fieldValue.length "")
    (fun a ha => Or.inl (List.eq_of_mem_replicate ha))
    (fun frag hfrag => Or.inl (List.eq_of_mem_replicate hfrag))
    (fun field value hMem hAllowed =>
      ⟨Or.inr ⟨field, hMem, hAllowed⟩, fun k => Or.inr ⟨field, value, k, hMem, hAllowed, rfl⟩⟩)
  refine ⟨rfl, hInv.2, ?_, rfl⟩
  intro a ha
  have ha' : a ∈ (users.postgresRepository.updateUserLists fieldValue).1 ++ [GoAny.uuid id] := ha
  rcases List.mem_append.mp ha' with h | h
  · rcases hInv.1 a h with h0 | h1
    · exact Or.inl h0
    · exact Or.inr (Or.inr h1)
  · exact Or.inr (Or.inl (List.mem_singleton.mp h))

/-- C10, counterexample: `password` is not one of `email`, `password_hash`,
`is_active`, yet the map that holds only `password` yields the `SET` entry
`password = $2, ` and binds its value; `password_hash` in turn is skipped. -/
theorem UpdateUser_applies_password_field :
    "password" ∉ ["email", "password_hash", "is_active"] ∧
      users.postgresRepository.updateUserStatement 5 [("password", .str "h")] =
        ("UPDATE users SET , password = $2,  WHERE id = $3",
         [GoAny.nil, GoAny.str "h", GoAny.uuid 5]) ∧
      "password = $2, " ∈
        (users.postgresRepository.updateUserLists [("password", .str "h")]).2 ∧
      GoAny.str "h" ∈ (users.postgresRepository.updateUserStatement 5 [("password", .str "h")]).2 ∧
      users.postgresRepository.updateUserStatement 5 [("password_hash", .str "h")] =
        ("UPDATE users SET  WHERE id = $2", [GoAny.nil, GoAny.uuid 5]) := by
  decide

/-! ### Creating a user -/

/-- When hashing and id generation succeed, `CreateUser` calls the store exactly once,
with the input record in which `Id`, `Password` and `CreatedAt` have been assigned. -/
theorem users.service.CreateUser_calls (rt : Runtime) (s : users.service) (user : users.User)
    (hash : String)
    (hHash : rt.bcryptGenerateFromPassword user.Password = (hash, none))
    (hId : rt.uuidNewV4.2 = none) :
    (users.service.CreateUser rt s user).calls =
      [.usersCreateUser
        { Id := rt.uuidNewV4.1, Email := user.Email, Password := hash,
          IsActive := user.IsActive, CreatedAt := rt.timeNow }] := by
  simp only [users.service.CreateUser, hHash, uuidMust, hId, Traced.bind, Traced.pure,
    Traced.call]
  split <;> simp
  split <;> simp

/-- When hashing and id generation succeed and the store answers with a record and no
error, `CreateUser` returns that record and no error. -/
theorem users.service.CreateUser_out (rt : Runtime) (s : users.service) (user : users.User)
    (hash : String) (created : users.User)
    (hHash : rt.bcryptGenerateFromPassword user.Password = (hash, none))
    (hId : rt.uuidNewV4.2 = none)
    (hStore : s.repository.CreateUser
        { Id := rt.uuidNewV4.1, Email := user.Email, Password := hash,
          IsActive := user.IsActive, CreatedAt := rt.timeNow } = .ok (created, none)) :
    (users.service.CreateUser rt s user).out = .ok (created, none) := by
  simp [users.service.CreateUser, hHash, uuidMust, hId, Traced.bind, Traced.pure,
    Traced.call, hStore]

/-- The postgres repository's `CreateUser` returns the record it was given, whether
or not the insert succeeds. -/
theorem users.postgresRepository.CreateUser_fst (r : users.postgresRepository)
    (user : users.User) : (r.CreateUser user).1 = user := by
  unfold users.postgresRepository.CreateUser
  dsimp only
  split <;> rfl

open handlers in
/-- C11, as the code has it: `CreateUser` never assigns `IsActive`. When hashing and id
generation succeed, the one record it hands to the store carries the `IsActive` value of
the input, and on success it returns the record the store answered with, which for the
postgres repository is the record handed over. `Register` passes a user literal that
names only `Email` and `Password`, so for a new email the record handed to the store
has `IsActive = false`. -/
theorem CreateUser_keeps_input_IsActive (rt : Runtime) (h : AuthHandler)
    (w : http.ResponseWriter) (user : users.User) (reg : userRegister)
    (hash regHash : String) (u : users.User) (err : GoError)
    (hHash : rt.bcryptGenerateFromPassword user.Password = (hash, none))
    (hRegHash : rt.bcryptGenerateFromPassword reg.Password = (regHash, none))
    (hId : rt.uuidNewV4.2 = none)
    (hNew : h.usersService.repository.GetUserByEmail reg.Email = .ok (u, some err))
    (hNotFound : errorsIs err users.ErrUserNotFound = true) :
    (∃ handed : users.User,
        (users.service.CreateUser rt h.usersService user).calls = [.usersCreateUser handed] ∧
        handed.IsActive = user.IsActive ∧
        (∀ created, h.usersService.repository.CreateUser handed = .ok (created, none) →
          (users.service.CreateUser rt h.usersService user).out = .ok (created, none)) ∧
        ∀ db : users.Pool,
          (users.postgresRepository.CreateUser { db := db } handed).1 = handed) ∧
      ∃ handed : users.User,
        (AuthHandler.Register rt h w { GetBody := some (.ok (.ok reg)) }).calls =
          [.usersGetUserByEmail reg.Email, .usersCreateUser handed] ∧
        handed.IsActive = false := by
  constructor
  · refine ⟨_, users.service.CreateUser_calls rt h.usersService user hash hHash hId, rfl,
      fun created hStore =>
        users.service.CreateUser_out rt h.usersService user hash created hHash hId hStore,
      ?_⟩
    intro db
    exact users.postgresRepository.CreateUser_fst { db := db } _
  · have hCalls := users.service.CreateUser_calls rt h.usersService
      { Email := reg.Email, Password := reg.Password } regHash hRegHash hId
    refine ⟨{ Id := rt.uuidNewV4.1, Email := reg.Email, Password := regHash,
              IsActive := false, CreatedAt := rt.timeNow }, ?_, rfl⟩
    simp only [AuthHandler.Register, users.service.GetUserByEmail, Traced.call, hNew]
    simp only [Option.any_some, hNotFound, not_true_eq_false, and_false, if_false]
    split <;> simp_all
    split <;> simp_all
    split <;> simp_all

open handlers in
/-- C11, witness: registering `b@x.com` in the concrete deployment. -/
theorem CreateUser_keeps_input_IsActive_witness :
    (∃ handed : users.User,
        (users.service.CreateUser Example.runtime Example.authHandler.usersService
          { Email := "b@x.com", Password := "pw2" }).calls = [.usersCreateUser handed] ∧
        handed.IsActive = (({ Email := "b@x.com", Password := "pw2" } : users.User)).IsActive ∧
        (∀ created, Example.authHandler.usersService.repository.CreateUser handed =
            .ok (created, none) →
          (users.service.CreateUser Example.runtime Example.authHandler.usersService
            { Email := "b@x.com", Password := "pw2" }).out = .ok (created, none)) ∧
        ∀ db : users.Pool,
          (users.postgresRepository.CreateUser { db := db } handed).1 = handed) ∧
      ∃ handed : users.User,
        (AuthHandler.Register Example.runtime Example.authHandler Example.responseWriter
          { GetBody := some (.ok (.ok { Email := "b@x.com", Password := "pw2" })) }).calls =
          [.usersGetUserByEmail "b@x.com", .usersCreateUser handed] ∧
        handed.IsActive = false :=
  CreateUser_keeps_input_IsActive Example.runtime Example.authHandler Example.responseWriter
    { Email := "b@x.com", Password := "pw2" } { Email := "b@x.com", Password := "pw2" }
    "bcrypt:pw2" "bcrypt:pw2" {} users.ErrUserNotFound
    (by decide) (by decide) (by decide) (by decide) (by decide)

open handlers in
/-- C11, counterexample: for the input user `b@x.com` with `IsActive = false`, the
record that `CreateUser` hands to the store and the record it returns both have
`IsActive = false`; so has the record that `Register` hands to the store for the new
email `b@x.com`. -/
theorem CreateUser_hands_over_inactive_user :
    users.service.CreateUser Example.runtime Example.usersService
        { Email := "b@x.com", Password := "pw2", IsActive := false } =
      { calls := [.usersCreateUser { Id := 7, Email := "b@x.com", Password := "bcrypt:pw2",
                                     IsActive := false, CreatedAt := 1000 }],
        out := .ok ({ Id := 7, Email := "b@x.com", Password := "bcrypt:pw2",
                      IsActive := false, CreatedAt := 1000 }, none) } ∧
      (AuthHandler.Register Example.runtime Example.authHandler Example.responseWriter
          { GetBody := some (.ok (.ok { Email := "b@x.com", Password := "pw2" })) }).calls =
        [.usersGetUserByEmail "b@x.com",
         .usersCreateUser { Id := 7, Email := "b@x.com", Password := "bcrypt:pw2",
                            IsActive := false, CreatedAt := 1000 }] := by
  decide

/-- C13: when hashing the input's password succeeds with output `hash`, every record
that `CreateUser` hands to the store is the input with `Email` unchanged, `Password`
set to `hash` (the hasher's output, not the plaintext field of the input), `Id` set
to the generated uuid and `CreatedAt` set to the current time, and when id generation
succeeds exactly one such record is handed over. When hashing fails, the store is not
called and the zero user is returned with the hasher's error. -/
theorem CreateUser_stores_hash_and_assigned_fields (rt : Runtime) (s : users.service)
    (user : users.User) :
    (∀ hash, rt.bcryptGenerateFromPassword user.Password = (hash, none) →
        (∀ c ∈ (users.service.CreateUser rt s user).calls,
          c = .usersCreateUser
            { Id := rt.uuidNewV4.1, Email := user.Email, Password := hash,
              IsActive := user.IsActive, CreatedAt := rt.timeNow }) ∧
        (rt.uuidNewV4.2 = none →
          (users.service.CreateUser rt s user).calls =
            [.usersCreateUser
              { Id := rt.uuidNewV4.1, Email := user.Email, Password := hash,
                IsActive := user.IsActive, CreatedAt := rt.timeNow }])) ∧
      ∀ hash err, rt.bcryptGenerateFromPassword user.Password = (hash, some err) →
        users.service.CreateUser rt s user = { calls := [], out := .ok ({}, some err) } := by
  constructor
  · intro hash hHash
    constructor
    · intro c hc
      cases hId : rt.uuidNewV4.2 with
      | none =>
        rw [users.service.CreateUser_calls rt s user hash hHash hId] at hc
        exact List.mem_singleton.mp hc
      | some e =>
        simp [users.service.CreateUser, hHash, uuidMust, hId, Traced.bind,
          Traced.goPanic] at hc
    · exact users.service.CreateUser_calls rt s user hash hHash
  · intro hash err hHash
    simp [users.service.CreateUser, hHash, Traced.pure]

/-- C13, witness: in the concrete deployment the password `pw2` of `b@x.com` is handed
to the store as `bcrypt:pw2`; with a failing hasher the store is not called. -/
theorem CreateUser_stores_hash_and_assigned_fields_witness :
    (users.service.CreateUser Example.runtime Example.usersService
        { Email := "b@x.com", Password := "pw2" }).calls =
        [.usersCreateUser { Id := 7, Email := "b@x.com", Password := "bcrypt:pw2",
                            IsActive := false, CreatedAt := 1000 }] ∧
      users.service.CreateUser Example.failingHashRuntime Example.usersService
          { Email := "b@x.com", Password := "pw2" } =
        { calls := [], out := .ok ({}, some (.external "bcrypt: password too long")) } :=
  ⟨((CreateUser_stores_hash_and_assigned_fields Example.runtime Example.usersService
      { Email := "b@x.com", Password := "pw2" }).1 "bcrypt:pw2" (by decide)).2 (by decide),
   (CreateUser_stores_hash_and_assigned_fields Example.failingHashRuntime
      Example.usersService { Email := "b@x.com", Password := "pw2" }).2 ""
      (.external "bcrypt: password too long") (by decide)⟩

/-! ### Deleting a session -/

/-- Against the table, the repository method `DeleteSession` leaves the rows whose id
is not the given one and reports no error. -/
theorem auth.postgresRepository.DeleteSession_on_table (t : String) (table : auth.Table) :
    auth.postgresRepository.DeleteSession auth.Table.Exec t table =
      (table.filter fun row => decide (row.Id ≠ t), none) := by
  simp [auth.postgresRepository.DeleteSession, auth.Table.Exec]

/-- A run of `service.DeleteSessionById` against the table leaves the rows whose id is
not the given one and returns a nil error. -/
theorem auth.Table.runDeleteSessionById_eq (s : auth.service) (t : String)
    (table : auth.Table) :
    auth.Table.runDeleteSessionById s t table =
      (some (table.filter fun row => decide (row.Id ≠ t)), .ok none) := by
  simp [auth.Table.runDeleteSessionById, auth.Table.wire, auth.service.DeleteSessionById,
    auth.NewPostgresRepository, auth.Pool.execStateless, auth.Table.pool,
    auth.Table.afterCalls, auth.Table.afterCall, auth.postgresRepository.DeleteSession,
    auth.Table.Exec, Traced.bind, Traced.call, Traced.pure]

/-- C12: `DeleteSessionById` makes the one store call `DeleteSession(t)` and returns
exactly what the store answered, so it returns an error only if the store reports one;
the postgres repository answers, for every pool, with the wrapped error of `Exec` on
`DELETE FROM auth_sessions WHERE id = $1` bound to `t`, and with nil when `Exec`
reports none. Over the sessions table as a list of rows, a run of the service through
the postgres repository returns a nil error (also when no row has id `t`) and leaves a
table `after` in which no row has id `t`; a row with another id is in `after` iff it
was in the table, and the rows kept are in their old order; a table without a row of
id `t` is left as it is; and a second run on `after` leaves `after`. -/
theorem DeleteSessionById_removes_that_session_only (s : auth.service) (t : String)
    (table : auth.Table) :
    auth.service.DeleteSessionById s t =
        { calls := [.authDeleteSession t], out := s.sessionRepository.DeleteSession t } ∧
      (∀ db : auth.Pool,
        (auth.NewPostgresRepository db).DeleteSession t =
          .ok ((db.Exec "DELETE FROM auth_sessions WHERE id = $1" [.str t]).map
            (GoError.wrapW "auth.repo.pg.DeleteSession"))) ∧
      ∃ after : auth.Table,
        auth.Table.runDeleteSessionById s t table = (some after, .ok none) ∧
        (∀ row ∈ after, row.Id ≠ t) ∧
        (∀ row : auth.Session, row.Id ≠ t → (row ∈ after ↔ row ∈ table)) ∧
        List.Sublist after table ∧
        ((∀ row ∈ table, row.Id ≠ t) → after = table) ∧
        auth.Table.runDeleteSessionById s t after = (some after, .ok none) := by
  refine ⟨?_, ?_, table.filter fun row => decide (row.Id ≠ t),
    auth.Table.runDeleteSessionById_eq s t table, ?_, ?_, List.filter_sublist _, ?_, ?_⟩
  · unfold auth.service.DeleteSessionById Traced.bind Traced.call
    cases hStore : s.sessionRepository.DeleteSession t with
    | error msg => simp
    | ok r => cases r <;> simp [Traced.pure]
  · intro db
    simp only [auth.NewPostgresRepository, auth.postgresRepository.DeleteSession,
      auth.Pool.execStateless]
    cases db.Exec "DELETE FROM auth_sessions WHERE id = $1" [.str t] <;> rfl
  · intro row hrow
    simpa using (List.mem_filter.mp hrow).2
  · intro row hne
    simp [List.mem_filter, hne]
  · intro hAbsent
    simpa [List.filter_eq_self] using hAbsent
  · rw [auth.Table.runDeleteSessionById_eq]
    simp [List.filter_filter]

/-- C12, witness: a run that deletes `t1` from a table of two sessions leaves the
other session, and no row of id `t1`. -/
theorem DeleteSessionById_removes_that_session_only_witness :
    auth.Table.runDeleteSessionById Example.authService "t1"
        [Example.staleSession, { Id := "t2", UserId := 1, ExpiresOn := 9000 }] =
        (some [{ Id := "t2", UserId := 1, ExpiresOn := 9000 }], .ok none) ∧
      ∃ after : auth.Table,
        auth.Table.runDeleteSessionById Example.authService "t1"
          [Example.staleSession, { Id := "t2", UserId := 1, ExpiresOn := 9000 }] =
          (some after, .ok none) ∧
        (∀ row ∈ after, row.Id ≠ "t1") ∧
        auth.Table.runDeleteSessionById Example.authService "t1" after =
          (some after, .ok none) :=
  ⟨by decide,
   match (DeleteSessionById_removes_that_session_only Example.authService "t1"
      [Example.staleSession, { Id := "t2", UserId := 1, ExpiresOn := 9000 }]).2.2 with
   | ⟨after, hRun, hGone, _, _, _, hAgain⟩ => ⟨after, hRun, hGone, hAgain⟩⟩

/-! ### The statement of `UpdateUser` -/

/-- C14, at the failing input: for the map that holds only the field `role`, which is
not allow-listed, the two slices are not empty but hold one padding entry each, so
`UpdateUser` does not return through its `len(fieldsToSet) == 0` test: against every
pool it issues `UPDATE users SET  WHERE id = $2` with the arguments `nil` and the id,
and in the concrete deployment its result differs from that of `GetUserById`. For the
map that holds only `email` the slices hold two entries each, a padding entry and the
one of `email`. -/
theorem UpdateUser_pads_slices_and_always_updates (db : users.Pool) :
    users.postgresRepository.updateUserLists [("role", .str "admin")] = ([GoAny.nil], [""]) ∧
      users.postgresRepository.UpdateUser { db := db } 5 [("role", .str "admin")] =
        (match db.QueryRowScan "UPDATE users SET  WHERE id = $2" [GoAny.nil, GoAny.uuid 5] with
         | (_, some err) => ({}, some (.fmtE "users.repo.pg.UpdateUser" err))
         | (user, none) => users.fromPGUser user) ∧
      users.postgresRepository.UpdateUser { db := Example.usersPool } 1
          [("role", .str "admin")] = ({}, none) ∧
      users.postgresRepository.GetUserById { db := Example.usersPool } 1 =
        (Example.alice, none) ∧
      users.postgresRepository.updateUserLists [("email", .str "b@x.com")] =
        ([GoAny.nil, GoAny.str "b@x.com"], ["", "email = $2, "]) := by
  refine ⟨by decide, ?_, by decide, by decide, by decide⟩
  rfl

/-! ### The statement of `DeleteSessionsByUserId` -/

/-- C15, at the failing input: for the excepted ids `a` and `b` the statement text is
`[DELETE FROM auth_sessions WHERE user_id = $1] AND value NOT IN ($1, $2)`: it begins
with a bracket, and its exclusion placeholders are numbered from `$1`. Against every
pool `Exec` receives that text with two arguments, the user id and the slice of
excepted ids; for the empty list it receives the base `DELETE` with the same two
arguments. -/
theorem DeleteSessionsByUserId_statement_at_two_ids (db : auth.Pool) :
    auth.postgresRepository.deleteSessionsByUserIdQuery ["a", "b"] =
        "[DELETE FROM auth_sessions WHERE user_id = $1] AND value NOT IN ($1, $2)" ∧
      auth.postgresRepository.DeleteSessionsByUserId { db := db } 1 ["a", "b"] =
        (match db.Exec
            "[DELETE FROM auth_sessions WHERE user_id = $1] AND value NOT IN ($1, $2)"
            [GoAny.uuid 1, GoAny.strs ["a", "b"]] with
         | some err => some (.wrapW "auth.repo.pg.DeleteSessionsByUserId" err)
         | none => none) ∧
      auth.postgresRepository.deleteSessionsByUserIdQuery [] =
        "DELETE FROM auth_sessions WHERE user_id = $1" ∧
      auth.postgresRepository.DeleteSessionsByUserId { db := db } 1 [] =
        (match db.Exec "DELETE FROM auth_sessions WHERE user_id = $1"
            [GoAny.uuid 1, GoAny.strs []] with
         | some err => some (.wrapW "auth.repo.pg.DeleteSessionsByUserId" err)
         | none => none) := by
  refine ⟨by decide, ?_, by decide, ?_⟩
  · rfl
  · rfl

end ImgShare
